import Mathlib

/-!
Verification of the BleachBit fork (lebao3105/bleachbit): a shallow embedding of
the configuration store (`bleachbit/Options.py`) and the locale path resolver
(`bleachbit/Unix.py`, class `Locales`), with theorems settling the specified
behavioural claims.

Conventions of the embedding:
* Python strings are Lean `String`s; indexing `s[i]` that can raise `IndexError`
  is modelled by pattern matching on `String.toList` with an `Except.error` case.
* Raised exceptions are modelled by `Except.error`; generator functions are
  modelled as functions from their (abstracted) traversal input to the list of
  yielded values.
* The platform is POSIX (`os.name != 'nt'`): `os.path.normcase` is the identity
  and the Windows-only branches (`GetLongPathName`, the colon re-insertion in
  `Options.__purge`) are not taken.
-/

namespace BleachBit

/-! ### Locales (bleachbit/Unix.py)

`Locales.native_locale_names` is a fixed dictionary mapping locale identifiers
to display names; `localization_paths` only uses its keys, transcribed here in
source order. -/

/-- The keys of `Locales.native_locale_names` in `bleachbit/Unix.py`. -/
def native_locale_names_keys : List String :=
  ["aa", "ab", "ace", "ach", "ae", "af", "ak", "am", "an", "ang", "anp", "ar",
  "as", "ast", "av", "ay", "az", "ba", "bal", "be", "bg", "bh", "bi", "bm",
  "bn", "bo", "br", "brx", "bs", "byn", "ca", "ce", "cgg", "ch", "ckb", "co",
  "cr", "crh", "cs", "csb", "cu", "cv", "cy", "da", "de", "doi", "dv", "dz",
  "ee", "el", "en", "en_AU", "en_CA", "en_GB", "eo", "es", "es_419", "et", "eu", "fa",
  "ff", "fi", "fil", "fin", "fj", "fo", "fr", "frp", "fur", "fy", "ga", "gd",
  "gez", "gl", "gn", "gu", "gv", "ha", "haw", "he", "hi", "hne", "ho", "hr",
  "hsb", "ht", "hu", "hy", "hz", "ia", "id", "ie", "ig", "ii", "ik", "ilo",
  "ina", "io", "is", "it", "iu", "iw", "ja", "jv", "ka", "kab", "kac", "kg",
  "ki", "kj", "kk", "kl", "km", "kn", "ko", "kok", "kr", "ks", "ku", "kv",
  "kw", "ky", "la", "lb", "lg", "li", "ln", "lo", "lt", "lu", "lv", "mai",
  "mg", "mh", "mhr", "mi", "mk", "ml", "mn", "mni", "mr", "ms", "mt", "my",
  "na", "nb", "nd", "nds", "ne", "ng", "nl", "nn", "no", "nr", "nso", "nv",
  "ny", "oc", "oj", "om", "or", "os", "pa", "pap", "pau", "pi", "pl", "ps",
  "pt", "pt_BR", "qu", "rm", "rn", "ro", "ru", "rw", "sa", "sat", "sc", "sd",
  "se", "sg", "shn", "si", "sk", "sl", "sm", "sn", "so", "sq", "sr", "ss",
  "st", "su", "sv", "sw", "ta", "te", "tet", "tg", "th", "ti", "tig", "tk",
  "tl", "tn", "to", "tr", "ts", "tt", "tw", "ty", "ug", "uk", "ur", "uz",
  "ve", "vi", "vo", "wa", "wae", "wal", "wo", "xh", "yi", "yo", "za", "zh",
  "zh_CN", "zh_TW", "zu"]

/-- A traversal match yielded by `LocaleCleanerPath.get_localizations`:
the captured base locale, the optional region specifier (regex group
`specifier`, `none` when the group did not participate), and the filesystem
path of the matched entry. -/
abbrev LocaleMatch := String × Option String × String

/-- The `purgeable_locales` frozenset computed inside
`Locales.localization_paths`: the keys of `native_locale_names` that are not in
the keep set. -/
def purgeable_locales (locales_to_keep : List String) : List String :=
  native_locale_names_keys.filter (fun locale => !locales_to_keep.contains locale)

/-- The yield condition of the loop body of `Locales.localization_paths`:
`specific = locale + (specifier or '')`, and the path is yielded when
`specific in purgeable_locales or (locale in purgeable_locales and specific not
in locales_to_keep)`. -/
def localizationYield (locales_to_keep : List String) (m : LocaleMatch) : Bool :=
  let specific := m.1 ++ m.2.1.getD ""
  (purgeable_locales locales_to_keep).contains specific ||
    ((purgeable_locales locales_to_keep).contains m.1 &&
      !locales_to_keep.contains specific)

/-- `Locales.localization_paths`, abstracted over the traversal output: the
filesystem walk `self._paths.get_localizations('/')` is abstracted as the list
`ms` of discovered `(locale, specifier, path)` triples. An empty keep set
raises `RuntimeError` before any traversal. -/
def localization_paths (locales_to_keep : List String) (ms : List LocaleMatch) :
    Except String (List String) :=
  if locales_to_keep.isEmpty then
    Except.error "Found no locales to keep"
  else
    Except.ok ((ms.filter (localizationYield locales_to_keep)).map (fun m => m.2.2))

/-! ### Rule-tree construction (bleachbit/Unix.py: LocaleCleanerPath, Locales.add_xml)

Compiled regexes are represented by their source strings: `add_path_filter`
combines its prefix and postfix with the fixed `Locales.localepattern`, so a
filter child is represented by the `(pre, post)` pair it was built from. -/

/-- The pattern of a `LocaleCleanerPath` node: a literal folder name
(`location` attribute) or a compiled folder-name pattern (`directoryregex`
attribute, kept as its source string). -/
inductive LCPattern where
  | literal : String → LCPattern
  | compiled : String → LCPattern
  deriving DecidableEq, Repr

mutual
/-- `LocaleCleanerPath`: a pattern for one path segment plus children. -/
inductive LocaleCleanerPath where
  | mk : LCPattern → List LCChild → LocaleCleanerPath

/-- A child of a `LocaleCleanerPath`: either a nested `LocaleCleanerPath`
(added by `add_child`) or a compiled localization-item filter (added by
`add_path_filter`, represented by its prefix/postfix pair). -/
inductive LCChild where
  | node : LocaleCleanerPath → LCChild
  | filter : String → String → LCChild
end

/-- A node of the parsed XML cleaner definition consumed by `Locales.add_xml`:
an element with its tag name, attributes and child nodes, or a non-element node
(text, comment), for which `add_xml` returns immediately. -/
inductive XmlNode where
  | element : String → List (String × String) → List XmlNode → XmlNode
  | nonElement : XmlNode

/-- First-match association-list lookup (Python attribute/dict access). -/
def lookupOpt (key : String) : List (String × α) → Option α
  | [] => none
  | (k, v) :: rest => if k = key then some v else lookupOpt key rest

/-- The character escaping applied to each half of a `filter` attribute:
`re.sub` prepends a backslash before any of `[ ] ( ) ^ $ .` so the half can be
used as a regex fragment. -/
def escapeFilterChar (c : Char) : List Char :=
  if c = '[' ∨ c = ']' ∨ c = '(' ∨ c = ')' ∨ c = '^' ∨ c = '$' ∨ c = '.' then
    ['\\', c]
  else [c]

/-- Escape one half of a `filter` attribute (the source's partial `re.escape`). -/
def escapeFilterPart (s : String) : String :=
  String.mk ((s.toList.map escapeFilterChar).flatten)

mutual
/-- `Locales.add_xml`, modelled as the list of children the XML node
contributes to its parent `LocaleCleanerPath` (the source mutates `parent`
in place; errors are `RuntimeError`s raised during construction).
Regex compilation itself is modelled as total: the claims under study concern
the explicit validations (slash in `directoryregex`, star count of `filter`). -/
def add_xml : XmlNode → Except String (List LCChild)
  | XmlNode.nonElement => Except.ok []
  | XmlNode.element nodeName attrs childNodes =>
    if nodeName = "regexfilter" then do
      let pre := (lookupOpt "prefix" attrs).getD ""
      let post := (lookupOpt "postfix" attrs).getD ""
      let rest ← add_xml_children childNodes
      Except.ok (LCChild.filter pre post :: rest)
    else if nodeName = "path" then
      match lookupOpt "directoryregex" attrs with
      | some pat =>
        if pat.toList.contains '/' then
          Except.error "directoryregex may not contain slashes."
        else do
          let rest ← add_xml_children childNodes
          Except.ok [LCChild.node (LocaleCleanerPath.mk (LCPattern.compiled pat) rest)]
      | none => do
        let filterChildren ←
          match lookupOpt "filter" attrs with
          | some userfilter =>
            if userfilter.toList.count '*' ≠ 1 then
              Except.error "Filter string must contain exactly ONE star placeholder"
            else
              match userfilter.splitOn "*" with
              | [p1, p2] =>
                  Except.ok [LCChild.filter (escapeFilterPart p1) (escapeFilterPart p2)]
              | _ => Except.error "filter split mismatch"
          | none => Except.ok []
        let rest ← add_xml_children childNodes
        match lookupOpt "location" attrs with
        | some loc =>
            Except.ok [LCChild.node
              (LocaleCleanerPath.mk (LCPattern.literal loc) (filterChildren ++ rest))]
        | none => Except.ok (filterChildren ++ rest)
    else Except.error "Invalid node, expected path or regexfilter"

/-- The trailing loop of `add_xml`: process every XML child with the same
parent, concatenating contributions; the first raise aborts. -/
def add_xml_children : List XmlNode → Except String (List LCChild)
  | [] => Except.ok []
  | x :: xs => do
    let a ← add_xml x
    let b ← add_xml_children xs
    Except.ok (a ++ b)
end

/-! ### Configuration store (bleachbit/Options.py)

The underlying `GetConfig` class comes from the external `libtextworker`
library (not part of this repository): its sectioned key/value behaviour is
modelled from the spec as an insertion-ordered association list of sections,
each an insertion-ordered association list of options. -/

/-- A configuration section: insertion-ordered option/value pairs. -/
abbrev ConfSection := List (String × String)

/-- The whole store: insertion-ordered named sections. -/
abbrev Store := List (String × ConfSection)

/-- Set an option inside a section: replace the first occurrence in place, or
append (Python dict update semantics with insertion order preserved). -/
def section_set (sec : ConfSection) (key value : String) : ConfSection :=
  match sec with
  | [] => [(key, value)]
  | (k, v) :: rest =>
      if k = key then (key, value) :: rest else (k, v) :: section_set rest key value

/-- `has_section`. -/
def has_section (st : Store) (name : String) : Bool :=
  (lookupOpt name st).isSome

/-- `add_section` (sections are appended in insertion order). -/
def add_section (st : Store) (name : String) : Store :=
  st ++ [(name, [])]

/-- `remove_section`. -/
def remove_section (st : Store) (name : String) : Store :=
  st.filter (fun p => p.1 ≠ name)

/-- `set(section, option, value)`; the callers modelled here always add the
section first, so a missing section is left unchanged. -/
def store_set (st : Store) (name key value : String) : Store :=
  st.map (fun p => if p.1 = name then (p.1, section_set p.2 key value) else p)

/-- `options(section)`: the option names of a section in insertion order. -/
def store_options (st : Store) (name : String) : List String :=
  ((lookupOpt name st).getD []).map Prod.fst

/-- `get(section, option)`: `none` models the raised missing-option error. -/
def store_get (st : Store) (name key : String) : Option String :=
  (lookupOpt name st).bind (lookupOpt key)

/-- Python string comparison: lexicographic on code points. -/
def charListLe : List Char → List Char → Bool
  | [], _ => true
  | _ :: _, [] => false
  | a :: as, b :: bs =>
      if a.toNat < b.toNat then true
      else if b.toNat < a.toNat then false
      else charListLe as bs

/-- Python `<=` on strings. -/
def strLe (a b : String) : Bool :=
  charListLe a.toList b.toList

/-- Insert into a sorted list (helper for `sortStrings`). -/
def insertSorted (x : String) : List String → List String
  | [] => [x]
  | y :: ys => if strLe x y then x :: y :: ys else y :: insertSorted x ys

/-- Python `sorted` on strings (stable, lexicographic by code point). -/
def sortStrings : List String → List String
  | [] => []
  | x :: xs => insertSorted x (sortStrings xs)

/-- First-occurrence deduplication with a seen accumulator. Python iterates
`set(myoptions)` in unspecified hash order; the concrete inputs settled here
have at most one distinct element, so any order model agrees. -/
def dedupFirstAux (seen : List String) : List String → List String
  | [] => []
  | x :: xs =>
      if seen.contains x then dedupFirstAux seen xs
      else x :: dedupFirstAux (x :: seen) xs

/-- Model of Python `set(...)` iteration for `get_paths`. -/
def dedupFirst (l : List String) : List String :=
  dedupFirstAux [] l

/-- The shared body of the `whitelist_paths` and `custom_paths` setters: clear
the section, then for each kind (dict key, e.g. `"files"`, `"folders"`) write
`str(counter) + "_type" ↦ kind` and `str(counter) + "_path" ↦ path`, with the
counter restarting from 0 for every kind. -/
def set_paths_section (st : Store) (name : String)
    (values : List (String × List String)) : Store :=
  let st1 := add_section (remove_section st name) name
  values.foldl (fun acc kv =>
    kv.2.enum.foldl (fun acc2 iv =>
      store_set (store_set acc2 name (toString iv.1 ++ "_type") kv.1)
        name (toString iv.1 ++ "_path") iv.2) acc) st1

/-- Append to one list-valued entry of the `values` dict in `get_paths`;
a missing key models Python's `KeyError`. -/
def dictAppend (d : List (String × List String)) (key value : String) :
    Except String (List (String × List String)) :=
  if (lookupOpt key d).isSome then
    Except.ok (d.map (fun p => if p.1 = key then (p.1, p.2 ++ [value]) else p))
  else
    Except.error ("KeyError: " ++ key)

/-- `Options.get_paths`: missing section returns the empty dict; otherwise
collect the prefixes before the first underscore of the sorted option names,
deduplicate, and for each prefix read `<prefix>_type` and `<prefix>_path` and
append the path under the key `p_type + "s"` of the
`[("files", []), ("folders", [])]` dict. -/
def get_paths (st : Store) (name : String) :
    Except String (List (String × List String)) :=
  if !has_section st name then Except.ok []
  else
    let myoptions := (sortStrings (store_options st name)).filterMap (fun o =>
      match o.toList.findIdx? (fun c => c = '_') with
      | none => none
      | some i => some (String.mk (o.toList.take i)))
    (dedupFirst myoptions).foldlM (fun values o => do
      let p_type ← match store_get st name (o ++ "_type") with
        | some v => Except.ok v
        | none => Except.error ("NoOptionError: " ++ o ++ "_type")
      let p_path ← match store_get st name (o ++ "_path") with
        | some v => Except.ok v
        | none => Except.error ("NoOptionError: " ++ o ++ "_path")
      dictAppend values (p_type ++ "s") p_path)
      [("files", []), ("folders", [])]

/-- `Options.set_list`: clear the `list/<key>` section and write the values
under the options `str(0), str(1), ...` in order. -/
def set_list (st : Store) (key : String) (values : List String) : Store :=
  let name := "list/" ++ key
  let st1 := add_section (remove_section st name) name
  values.enum.foldl (fun acc iv => store_set acc name (toString iv.1) iv.2) st1

/-- `Options.get_list`: missing section returns `None`; otherwise the values
of the section's options in SORTED (string, not numeric) option order. -/
def get_list (st : Store) (key : String) : Option (List (Option String)) :=
  let name := "list/" ++ key
  if has_section st name then
    some ((sortStrings (store_options st name)).map (fun o => store_get st name o))
  else none

/-- `path_to_option` on POSIX: `os.path.normcase` is the identity and the
`GetLongPathName` branch is Windows-only, so the function reads `pathname[1]`
(an `IndexError` when the length is below 2) and strips a colon there. -/
def path_to_option (pathname : String) : Except String String :=
  match pathname.toList with
  | c0 :: c1 :: rest =>
      if c1 = ':' then Except.ok (String.mk (c0 :: rest)) else Except.ok pathname
  | _ => Except.error "IndexError: string index out of range"

/-- The key-to-path reconstruction in `Options.__purge` on POSIX: the colon
re-insertion is guarded by `os.name == 'nt'`, so the option key is used
unchanged as a pathname. -/
def purge_restore (option : String) : String :=
  option

/-- The `hashpath` key normalization at the top of `Options.Get`: `option[1]`
is read unconditionally (an `IndexError` when the length is below 2) and a
colon there is stripped before the underlying lookup. -/
def Options_Get_hashpath_key (option : String) : Except String String :=
  match option.toList with
  | c0 :: c1 :: rest =>
      if c1 = ':' then Except.ok (String.mk (c0 :: rest)) else Except.ok option
  | _ => Except.error "IndexError: string index out of range"

/-- Modelled from the spec: the truthy vocabulary of the external
`GetConfig.getboolean` — the usual words plus the appended single letter. -/
def yes_values : List String :=
  ["1", "yes", "true", "on", "t"]

/-- Modelled from the spec: the falsy vocabulary of the external
`GetConfig.getboolean` — the usual words plus the appended single letter. -/
def no_values : List String :=
  ["0", "no", "false", "off", "f"]

/-- Python `str.lower()` restricted to ASCII (the vocabulary words are
ASCII). -/
def pyLower (s : String) : String :=
  String.mk (s.toList.map Char.toLower)

/-- Modelled from the spec: boolean coercion of a stored text by the external
`GetConfig` (case-insensitive; `none` models the raised `ValueError`). -/
def getboolean (s : String) : Option Bool :=
  if yes_values.contains (pyLower s) then some true
  else if no_values.contains (pyLower s) then some false
  else none

/-- Python `str(value)` for a boolean (`set` stores this canonical form). -/
def pyStrBool (b : Bool) : String :=
  if b then "True" else "False"

/-- Modelled from the spec: integer coercion of a stored text by the external
`GetConfig.getint` (Python `int(...)`: optional surrounding whitespace,
optional sign, at least one digit; `none` models the raised `ValueError`). -/
def pyInt (s : String) : Option Int :=
  match s.trim.toList with
  | [] => none
  | c :: rest =>
      if c = '-' ∨ c = '+' then
        if rest ≠ [] ∧ rest.all Char.isDigit then
          let n : Nat := rest.foldl (fun acc d => 10 * acc + (d.toNat - 48)) 0
          some (if c = '-' then -(n : Int) else (n : Int))
        else none
      else if (c :: rest).all Char.isDigit then
        some (((c :: rest).foldl (fun acc d => 10 * acc + (d.toNat - 48)) 0 : Nat) : Int)
      else none

/-- The `defaults` dictionary of `Options.py` on POSIX (`os.name != 'nt'`
adds `kde_shred_menu_option` instead of `update_winapp2`). -/
def defaults_bool : List (String × Bool) :=
  [("auto_hide", true), ("check_beta", false), ("check_online_updates", true),
   ("dark_mode", true), ("debug", false), ("delete_confirmation", true),
   ("exit_done", false), ("remember_geometry", true), ("shred", false),
   ("units_iec", false), ("window_maximized", false),
   ("kde_shred_menu_option", false)]

/-- `boolean_keys = defaults.keys()`. -/
def boolean_keys : List String :=
  defaults_bool.map Prod.fst

/-- `int_keys`. -/
def int_keys : List String :=
  ["window_x", "window_y", "window_width", "window_height"]

/-- Reading a boolean key of the `bleachbit` section: a stored text is coerced
(`none` models the raised `ValueError`); an absent key falls back to the
static default. The underlying accessor is modelled from the spec
(`get(section, key)` of the external `GetConfig`). -/
def options_get_bool (sec : ConfSection) (key : String) : Option Bool :=
  match lookupOpt key sec with
  | some s => getboolean s
  | none => lookupOpt key defaults_bool

/-- Writing a boolean key: `set` converts the value to its canonical string
form (`str(True)`/`str(False)`) and stores it. -/
def options_set_bool (sec : ConfSection) (key : String) (b : Bool) : ConfSection :=
  section_set sec key (pyStrBool b)

/-- `Options.toggle`: read the current boolean value and store its negation;
`none` models the failure when the stored text is not boolean-coercible. -/
def toggle (sec : ConfSection) (key : String) : Option ConfSection :=
  (options_get_bool sec key).map (fun b => options_set_bool sec key (!b))

/-- One clause of `is_corrupt`: a boolean key present in the section whose
stored text fails boolean coercion. -/
def bad_bool (sec : ConfSection) (key : String) : Bool :=
  match lookupOpt key sec with
  | some s => (getboolean s).isNone
  | none => false

/-- One clause of `is_corrupt`: an integer key present in the section whose
stored text fails integer coercion. -/
def bad_int (sec : ConfSection) (key : String) : Bool :=
  match lookupOpt key sec with
  | some s => (pyInt s).isNone
  | none => false

/-- `Options.is_corrupt`: scan the statically known boolean keys and integer
keys; a key present in the `bleachbit` section whose stored text fails its
coercion makes the whole store corrupt. Total by construction (the source
catches the coercion `ValueError` and returns `True`). -/
def is_corrupt (sec : ConfSection) : Bool :=
  boolean_keys.any (bad_bool sec) || int_keys.any (bad_int sec)

/-- The `bleachbit` section of a freshly initialized store: `restore()` writes
only `first_start` and `version`, neither of which is a boolean or integer
key. -/
def freshStore : ConfSection :=
  [("first_start", "true"), ("version", "5.0.0")]

/-- `errno.ENOSPC` (no space left on device). -/
def ENOSPC : Nat :=
  28

/-- The outcome of the underlying full-file write performed by
`super().Update_And_Write()`: success, or an `IOError` with its errno. -/
inductive WriteOutcome where
  | success : WriteOutcome
  | ioError : Nat → WriteOutcome

/-- The exception handling of `Options.Update_And_Write`: an `IOError` whose
errno is `ENOSPC` is logged and swallowed (the call returns normally, nothing
persisted — `ok false`); any other `IOError` is re-raised; a successful write
persists (`ok true`). -/
def Update_And_Write (w : WriteOutcome) : Except Nat Bool :=
  match w with
  | WriteOutcome.success => Except.ok true
  | WriteOutcome.ioError e =>
      if e = ENOSPC then Except.ok false else Except.error e

/-! ### Theorems about the locale resolver -/

/-- A locale is in the purgeable set iff it is a `native_locale_names` key that
is absent from the keep set. -/
theorem mem_purgeable_iff (locales_to_keep : List String) (s : String) :
    s ∈ purgeable_locales locales_to_keep ↔
      s ∈ native_locale_names_keys ∧ s ∉ locales_to_keep := by
  simp [purgeable_locales, List.mem_filter, List.elem_iff]

/-- C9: an empty keep set makes `localization_paths` raise (fail fast, before
consulting any traversal match), and a non-empty keep set never trips this
check: the call returns a yielded-path list. -/
theorem c9_empty_keep_raises (ms : List LocaleMatch) :
    localization_paths [] ms = Except.error "Found no locales to keep" ∧
    ∀ locales_to_keep : List String, locales_to_keep ≠ [] →
      ∃ yielded, localization_paths locales_to_keep ms = Except.ok yielded := by
  constructor
  · rfl
  · intro keep hk
    cases keep with
    | nil => exact absurd rfl hk
    | cons a l => exact ⟨_, rfl⟩

/-- Witness for C9 at the concrete keep sets `[]` and `["en"]`. -/
theorem c9_empty_keep_raises_witness :
    localization_paths [] [] = Except.error "Found no locales to keep" ∧
    ∃ yielded, localization_paths ["en"] [] = Except.ok yielded :=
  ⟨(c9_empty_keep_raises []).1,
   (c9_empty_keep_raises []).2 ["en"] (by decide)⟩

/-- C1 counterexample: with keep set `["en"]`, the tag `"qq"` is absent from
the keep set — purgeable in the sense of the claim — yet its path is not
yielded, because `"qq"` is not a key of `native_locale_names` and therefore not
in the code's `purgeable_locales` set. -/
theorem c1_counterexample :
    ("qq" ∉ ["en"]) ∧
    localization_paths ["en"] [("qq", none, "/usr/share/locale/qq/m.mo")] =
      Except.ok [] := by
  constructor
  · decide
  · rfl

/-- C1 (amended): for a non-empty keep set, a traversal match is yielded iff
its fully qualified tag is purgeable, or its base locale is purgeable and the
fully qualified tag is not in the keep set — where a purgeable locale is a key
of `native_locale_names` absent from the keep set; an explicit keep of the
specific tag always wins over the base-language decision. -/
theorem c1_yield_decision (locales_to_keep : List String) (locale : String)
    (specifier : Option String) (path : String) (hk : locales_to_keep ≠ []) :
    (localizationYield locales_to_keep (locale, specifier, path) = true ↔
      (locale ++ specifier.getD "") ∈ purgeable_locales locales_to_keep ∨
        (locale ∈ purgeable_locales locales_to_keep ∧
          (locale ++ specifier.getD "") ∉ locales_to_keep)) ∧
    ((locale ++ specifier.getD "") ∈ locales_to_keep →
      localizationYield locales_to_keep (locale, specifier, path) = false) ∧
    localization_paths locales_to_keep [(locale, specifier, path)] =
      Except.ok (if localizationYield locales_to_keep (locale, specifier, path)
        then [path] else []) := by
  refine ⟨?_, ?_, ?_⟩
  · simp [localizationYield, List.elem_iff]
  · intro hin
    have h1 : (locale ++ specifier.getD "") ∉ purgeable_locales locales_to_keep := by
      intro h
      exact ((mem_purgeable_iff locales_to_keep _).mp h).2 hin
    simp only [localizationYield, Bool.or_eq_false_iff, Bool.and_eq_false_iff]
    refine ⟨?_, Or.inr ?_⟩
    · rw [← Bool.not_eq_true, List.elem_iff]
      exact h1
    · simp [List.elem_iff, hin]
  · cases locales_to_keep with
    | nil => exact absurd rfl hk
    | cons a l =>
        by_cases h : localizationYield (a :: l) (locale, specifier, path) = true
        · simp [localization_paths, List.filter_cons, h]
        · rw [Bool.not_eq_true] at h
          simp [localization_paths, List.filter_cons, h]

/-- Witness for C1 at keep set `["en"]` and the match `("fr", none, "p")`. -/
theorem c1_yield_decision_witness :
    (localizationYield ["en"] ("fr", none, "p") = true ↔
      ("fr" ++ "") ∈ purgeable_locales ["en"] ∨
        ("fr" ∈ purgeable_locales ["en"] ∧ ("fr" ++ "") ∉ ["en"])) ∧
    localization_paths ["en"] [("fr", none, "p")] =
      Except.ok (if localizationYield ["en"] ("fr", none, "p") then ["p"] else []) :=
  ⟨(c1_yield_decision ["en"] "fr" none "p" (by decide)).1,
   (c1_yield_decision ["en"] "fr" none "p" (by decide)).2.2⟩

/-- C2 counterexample: with keep set `["en"]` and discovered tags
en, en_GB, fr, de_DE, the en_GB path IS yielded — contrary to the claim that it
is withheld — because `"en_GB"` is itself a `native_locale_names` key absent
from the keep set. -/
theorem c2_counterexample :
    ∃ yielded,
      localization_paths ["en"]
        [("en", none, "/L/en/m.mo"), ("en", some "_GB", "/L/en_GB/m.mo"),
         ("fr", none, "/L/fr/m.mo"), ("de", some "_DE", "/L/de_DE/m.mo")] =
        Except.ok yielded ∧ "/L/en_GB/m.mo" ∈ yielded := by
  refine ⟨["/L/en_GB/m.mo", "/L/fr/m.mo", "/L/de_DE/m.mo"], ?_, ?_⟩
  · rfl
  · decide

/-- C2 (amended): with keep set `["en"]` and discovered tags en, en_GB, fr,
de_DE, the paths tagged en_GB, fr and de_DE are yielded and only the en path is
withheld (en_GB is a native-locale key outside the keep set, so the
fully-qualified clause yields it); when `"en_GB"` is additionally kept, only fr
and de_DE are yielded. -/
theorem c2_keep_en_example :
    localization_paths ["en"]
      [("en", none, "/L/en/m.mo"), ("en", some "_GB", "/L/en_GB/m.mo"),
       ("fr", none, "/L/fr/m.mo"), ("de", some "_DE", "/L/de_DE/m.mo")] =
      Except.ok ["/L/en_GB/m.mo", "/L/fr/m.mo", "/L/de_DE/m.mo"] ∧
    localization_paths ["en", "en_GB"]
      [("en", none, "/L/en/m.mo"), ("en", some "_GB", "/L/en_GB/m.mo"),
       ("fr", none, "/L/fr/m.mo"), ("de", some "_DE", "/L/de_DE/m.mo")] =
      Except.ok ["/L/fr/m.mo", "/L/de_DE/m.mo"] := by
  constructor
  · rfl
  · rfl

/-! ### Theorems about rule-tree construction -/

/-- C8 counterexample: a `path` node carrying BOTH a `directoryregex`
attribute (without slashes) and a `filter` attribute with zero stars
constructs successfully — the filter attribute is silently ignored, never
validated — contrary to the claim that every filter string whose star count is
not exactly one is rejected at construction time. -/
theorem c8_counterexample :
    "xy".toList.count '*' = 0 ∧
    add_xml (XmlNode.element "path" [("directoryregex", "ab"), ("filter", "xy")] []) =
      Except.ok [LCChild.node (LocaleCleanerPath.mk (LCPattern.compiled "ab") [])] := by
  constructor
  · decide
  · rfl

/-- C8 (amended): `add_xml` raises for every `directoryregex` attribute
containing a slash, and for every `filter` attribute whose star count is not
exactly one on a `path` node that has NO `directoryregex` attribute (when both
attributes are present, the filter is ignored rather than validated); both
rejections happen at construction time. -/
theorem c8_construction_validation (attrs : List (String × String))
    (children : List XmlNode) (pat f : String) :
    (lookupOpt "directoryregex" attrs = some pat → '/' ∈ pat.toList →
      add_xml (XmlNode.element "path" attrs children) =
        Except.error "directoryregex may not contain slashes.") ∧
    (lookupOpt "directoryregex" attrs = none → lookupOpt "filter" attrs = some f →
      f.toList.count '*' ≠ 1 →
      add_xml (XmlNode.element "path" attrs children) =
        Except.error "Filter string must contain exactly ONE star placeholder") := by
  constructor
  · intro h hs
    have hs2 : '/' ∈ pat.data := hs
    simp [add_xml, h, hs2]
  · intro h hf hcount
    have hcount2 : ¬List.count '*' f.data = 1 := hcount
    simp [add_xml, h, hf, hcount2]
    rfl

/-- Witness for C8 at concrete malformed nodes: a slashed `directoryregex` and
a starless `filter`. -/
theorem c8_construction_validation_witness :
    add_xml (XmlNode.element "path" [("directoryregex", "a/b")] []) =
      Except.error "directoryregex may not contain slashes." ∧
    add_xml (XmlNode.element "path" [("filter", "ab")] []) =
      Except.error "Filter string must contain exactly ONE star placeholder" :=
  ⟨(c8_construction_validation [("directoryregex", "a/b")] [] "a/b" "").1 rfl (by decide),
   (c8_construction_validation [("filter", "ab")] [] "" "ab").2 rfl rfl (by decide)⟩

/-! ### Theorems about the configuration store -/

/-- C3: the structured round trip is broken. Writing the whitelist dict
`{files: [a], folders: []}` through the `whitelist_paths` setter and reading
it back through `get_paths` raises `KeyError` — the setter stores the dict key
`"files"` as the per-entry type, and the getter appends `"s"` and looks up
`"filess"`. Independently, `set_list` followed by `get_list` on an
11-element list returns the elements in lexicographic key order
(`"0", "1", "10", "2", ...`), not the order written. -/
theorem c3_roundtrip_failure :
    get_paths (set_paths_section [] "whitelist/paths" [("files", ["a"]), ("folders", [])])
        "whitelist/paths" = Except.error "KeyError: filess" ∧
    get_list (set_list [] "shred_drives"
        ["v0", "v1", "v2", "v3", "v4", "v5", "v6", "v7", "v8", "v9", "v10"])
        "shred_drives" =
      some [some "v0", some "v1", some "v10", some "v2", some "v3", some "v4",
            some "v5", some "v6", some "v7", some "v8", some "v9"] ∧
    [some "v0", some "v1", some "v10", some "v2", some "v3", some "v4",
     some "v5", some "v6", some "v7", some "v8", some "v9"] ≠
      (["v0", "v1", "v2", "v3", "v4", "v5", "v6", "v7", "v8", "v9", "v10"].map some) := by
  refine ⟨?_, ?_, ?_⟩
  · rfl
  · rfl
  · decide

/-- C4 counterexample: on POSIX the distinct pathnames `"a:bc"` and `"abc"`
map to the same option key `"abc"` (the colon at index 1 is stripped
unconditionally), and the purge reconstruction — the identity on POSIX —
returns `"abc"`, not `"a:bc"`: `path_to_option` is not a bijection and the
round trip does not recover the original path. -/
theorem c4_counterexample :
    path_to_option "a:bc" = Except.ok "abc" ∧
    path_to_option "abc" = Except.ok "abc" ∧
    purge_restore "abc" = "abc" ∧
    "a:bc" ≠ "abc" := by
  exact ⟨rfl, rfl, rfl, by decide⟩

/-- C4 (amended): restricted to POSIX pathnames of length at least 2 whose
character at index 1 is not a colon, `path_to_option` is the identity, the
purge reconstruction recovers the original pathname exactly, and no other such
pathname maps to the same key. -/
theorem c4_no_colon_roundtrip (p : String) (c0 c1 : Char) (rest : List Char)
    (hp : p.toList = c0 :: c1 :: rest) (hc : c1 ≠ ':') :
    path_to_option p = Except.ok p ∧ purge_restore p = p ∧
    ∀ q : String, q.toList[1]? ≠ some ':' →
      path_to_option q = Except.ok p → q = p := by
  have hp2 : p.data = c0 :: c1 :: rest := hp
  refine ⟨?_, rfl, ?_⟩
  · simp [path_to_option, hp2, hc]
  · intro q hq1 hq2
    unfold path_to_option at hq2
    cases hql : q.toList with
    | nil => rw [hql] at hq2; exact absurd hq2 (by simp)
    | cons d0 tail =>
        cases tail with
        | nil => rw [hql] at hq2; exact absurd hq2 (by simp)
        | cons d1 r =>
            rw [hql] at hq2
            rw [hql] at hq1
            have hd1 : d1 ≠ ':' := by
              intro hcolon
              exact hq1 (by simp [hcolon])
            simp [hd1] at hq2
            exact hq2

/-- Witness for C4 at the concrete pathname `"ab"`. -/
theorem c4_no_colon_roundtrip_witness :
    path_to_option "ab" = Except.ok "ab" ∧ purge_restore "ab" = "ab" :=
  ⟨(c4_no_colon_roundtrip "ab" 'a' 'b' [] rfl (by decide)).1,
   (c4_no_colon_roundtrip "ab" 'a' 'b' [] rfl (by decide)).2.1⟩

/-- Looking up a key just written by `section_set` returns the written value. -/
theorem lookupOpt_section_set_self (sec : ConfSection) (key value : String) :
    lookupOpt key (section_set sec key value) = some value := by
  induction sec with
  | nil => simp [section_set, lookupOpt]
  | cons p rest ih =>
      obtain ⟨k, v⟩ := p
      by_cases h : k = key
      · simp [section_set, lookupOpt, h]
      · simp [section_set, lookupOpt, h, ih]

/-- The canonical string form written by `set` coerces back to the boolean it
came from. -/
theorem getboolean_pyStrBool (b : Bool) : getboolean (pyStrBool b) = some b := by
  cases b <;> decide

/-- C5: `toggle` is an involution on boolean keys — for every section state in
which the key holds a boolean-coercible stored value, two successive toggles
succeed and leave the key's observable boolean value equal to the original. -/
theorem c5_toggle_involution (sec : ConfSection) (key : String) (b : Bool)
    (_hk : key ∈ boolean_keys) (hb : options_get_bool sec key = some b) :
    ∃ sec1 sec2, toggle sec key = some sec1 ∧ toggle sec1 key = some sec2 ∧
      options_get_bool sec2 key = some b := by
  refine ⟨options_set_bool sec key (!b),
    options_set_bool (options_set_bool sec key (!b)) key (!(!b)), ?_, ?_, ?_⟩
  · simp [toggle, hb]
  · simp [toggle, options_get_bool, options_set_bool,
      lookupOpt_section_set_self, getboolean_pyStrBool]
  · simp [options_get_bool, options_set_bool,
      lookupOpt_section_set_self, getboolean_pyStrBool]

/-- Witness for C5 at the key `"shred"` stored as the extended-vocabulary
truthy text `"t"`. -/
theorem c5_toggle_involution_witness :
    ∃ sec1 sec2, toggle [("shred", "t")] "shred" = some sec1 ∧
      toggle sec1 "shred" = some sec2 ∧
      options_get_bool sec2 "shred" = some true :=
  c5_toggle_involution [("shred", "t")] "shred" true (by decide) (by decide)

/-- C6: `is_corrupt` is false on a freshly initialized store, true once a
boolean key holds the stored text `"banana"`, and in general true exactly when
some statically known boolean (resp. integer) key present in the store holds a
text failing boolean (resp. integer) coercion; it inspects only present keys
and, being a total boolean function, never raises. -/
theorem c6_is_corrupt_characterization :
    is_corrupt freshStore = false ∧
    is_corrupt (section_set freshStore "auto_hide" "banana") = true ∧
    ∀ sec : ConfSection,
      is_corrupt sec = true ↔
        ((∃ k ∈ boolean_keys, ∃ s, lookupOpt k sec = some s ∧ getboolean s = none) ∨
         (∃ k ∈ int_keys, ∃ s, lookupOpt k sec = some s ∧ pyInt s = none)) := by
  refine ⟨by decide, by decide, ?_⟩
  intro sec
  have hb : ∀ k, bad_bool sec k = true ↔
      ∃ s, lookupOpt k sec = some s ∧ getboolean s = none := by
    intro k
    unfold bad_bool
    cases h : lookupOpt k sec with
    | none => simp [h]
    | some s => simp [h, Option.isNone_iff_eq_none]
  have hi : ∀ k, bad_int sec k = true ↔
      ∃ s, lookupOpt k sec = some s ∧ pyInt s = none := by
    intro k
    unfold bad_int
    cases h : lookupOpt k sec with
    | none => simp [h]
    | some s => simp [h, Option.isNone_iff_eq_none]
  simp [is_corrupt, List.any_eq_true, hb, hi]

/-- C7: during the configuration write, an `IOError` with errno `ENOSPC` (disk
full) is swallowed — the call returns normally without having persisted —
while an `IOError` with any other errno propagates; a successful write
persists. -/
theorem c7_enospc_swallowed :
    ∀ e : Nat,
      (Update_And_Write (WriteOutcome.ioError e) = Except.ok false ↔ e = ENOSPC) ∧
      (Update_And_Write (WriteOutcome.ioError e) = Except.error e ↔ e ≠ ENOSPC) ∧
      Update_And_Write WriteOutcome.success = Except.ok true := by
  intro e
  by_cases h : e = ENOSPC <;> simp [Update_And_Write, h]

/-- C10: `path_to_option` and the `hashpath` branch of `Options.Get` read the
character at index 1 unconditionally, so every pathname of length 0 or 1 makes
them fail with an index error, while every pathname of length at least 2
yields a key. -/
theorem c10_short_path_index_error (p : String) (h : p.toList.length < 2) :
    path_to_option p = Except.error "IndexError: string index out of range" ∧
    Options_Get_hashpath_key p = Except.error "IndexError: string index out of range" ∧
    ∀ q : String, 2 ≤ q.toList.length → ∃ k, path_to_option q = Except.ok k := by
  have h2 : p.data.length < 2 := h
  refine ⟨?_, ?_, ?_⟩
  · cases hl : p.data with
    | nil => simp [path_to_option, hl]
    | cons c0 tail =>
        cases tail with
        | nil => simp [path_to_option, hl]
        | cons c1 r => rw [hl] at h2; simp at h2; omega
  · cases hl : p.data with
    | nil => simp [Options_Get_hashpath_key, hl]
    | cons c0 tail =>
        cases tail with
        | nil => simp [Options_Get_hashpath_key, hl]
        | cons c1 r => rw [hl] at h2; simp at h2; omega
  · intro q hq
    have hq2 : 2 ≤ q.data.length := hq
    cases hl : q.data with
    | nil => rw [hl] at hq2; simp at hq2
    | cons d0 tail =>
        cases tail with
        | nil => rw [hl] at hq2; simp at hq2
        | cons d1 r =>
            by_cases hd : d1 = ':'
            · exact ⟨String.mk (d0 :: r), by simp [path_to_option, hl, hd]⟩
            · exact ⟨q, by simp [path_to_option, hl, hd]⟩

/-- Witness for C10 at the length-1 pathname `"x"` and the length-2 pathname
`"ab"`. -/
theorem c10_short_path_index_error_witness :
    path_to_option "x" = Except.error "IndexError: string index out of range" ∧
    Options_Get_hashpath_key "x" =
      Except.error "IndexError: string index out of range" ∧
    ∃ k, path_to_option "ab" = Except.ok k :=
  ⟨(c10_short_path_index_error "x" (by decide)).1,
   (c10_short_path_index_error "x" (by decide)).2.1,
   (c10_short_path_index_error "x" (by decide)).2.2 "ab" (by decide)⟩

end BleachBit
